import Mathlib

set_option maxHeartbeats 1000000
set_option maxRecDepth 8000

namespace EPaper

/-- Total data bytes per channel: DISPLAY_WIDTH * DISPLAY_HEIGHT / 2 = 640*384/2
(constant TOTAL_BYTES in both sketches). -/
def TOTAL_BYTES : Nat := 122880

/-- One low-level panel-bus transaction, as issued by the driver layer:
EPD_Reset, EPD_WaitUntilIdle, EPD_SendCommand, EPD_SendData. -/
inductive PanelOp where
  | reset
  | waitIdle
  | cmd (b : Nat)
  | data (b : Nat)

deriving instance DecidableEq for PanelOp

/-- EPD_Send_1: a command byte followed by one data byte. -/
def EPD_Send_1 (c v1 : Nat) : List PanelOp :=
  [PanelOp.cmd c, PanelOp.data v1]

/-- EPD_Send_2: a command byte followed by two data bytes. -/
def EPD_Send_2 (c v1 v2 : Nat) : List PanelOp :=
  [PanelOp.cmd c, PanelOp.data v1, PanelOp.data v2]

/-- EPD_Send_3: a command byte followed by three data bytes. -/
def EPD_Send_3 (c v1 v2 v3 : Nat) : List PanelOp :=
  [PanelOp.cmd c, PanelOp.data v1, PanelOp.data v2, PanelOp.data v3]

/-- EPD_Send_4: a command byte followed by four data bytes. -/
def EPD_Send_4 (c v1 v2 v3 v4 : Nat) : List PanelOp :=
  [PanelOp.cmd c, PanelOp.data v1, PanelOp.data v2, PanelOp.data v3, PanelOp.data v4]

/-- The bus-transaction trace of EPD_7in5_V1_Init (identical in both sketches):
hardware reset, the fixed register-write sequence, power-on with wait-for-idle,
and the final prepare-black/white command 0x10. -/
def EPD_7in5_V1_Init : List PanelOp :=
  [PanelOp.reset]
  ++ EPD_Send_2 0x01 0x37 0x00
  ++ EPD_Send_2 0x00 0xCF 0x08
  ++ EPD_Send_3 0x06 0xC7 0xCC 0x28
  ++ [PanelOp.cmd 0x04, PanelOp.waitIdle]
  ++ EPD_Send_1 0x30 0x3C
  ++ EPD_Send_1 0x41 0x00
  ++ EPD_Send_1 0x50 0x77
  ++ EPD_Send_1 0x60 0x22
  ++ EPD_Send_4 0x61 0x02 0x80 0x01 0x80
  ++ EPD_Send_1 0x82 0x1E
  ++ EPD_Send_1 0xE5 0x03
  ++ [PanelOp.cmd 0x10]

/-- The bus-transaction trace of EPD_7IN5_V1_Show: the refresh command 0x12
(the following fixed settle delays produce no bus traffic). -/
def EPD_7IN5_V1_Show : List PanelOp :=
  [PanelOp.cmd 0x12]

/-- The four per-byte diagnostic counters of streamChannelToDisplay:
blackBytes, whiteBytes, redPrepBytes, otherBytes. -/
structure Counters where
  blackBytes : Nat
  whiteBytes : Nat
  redPrepBytes : Nat
  otherBytes : Nat

deriving instance DecidableEq for Counters

/-- All counters zero, as at the start of streamChannelToDisplay. -/
def initialCounters : Counters :=
  { blackBytes := 0, whiteBytes := 0, redPrepBytes := 0, otherBytes := 0 }

/-- The per-byte classification of the streaming loop: 0x00 is counted as black,
0x33 as white, 0xCC as red-prepare, anything else as other. -/
def countByte (c : Counters) (b : Nat) : Counters :=
  if b = 0x00 then { c with blackBytes := c.blackBytes + 1 }
  else if b = 0x33 then { c with whiteBytes := c.whiteBytes + 1 }
  else if b = 0xCC then { c with redPrepBytes := c.redPrepBytes + 1 }
  else { c with otherBytes := c.otherBytes + 1 }

/-- Sum of the four diagnostic counters. -/
def sumCounters (c : Counters) : Nat :=
  c.blackBytes + c.whiteBytes + c.redPrepBytes + c.otherBytes

/-- How the chunked read loop of streamChannelToDisplay ended: by the 30-second
timeout branch (the early return false) or by the while-condition turning false. -/
inductive StreamOutcome where
  | timeout
  | done

deriving instance DecidableEq for StreamOutcome

/-- The state accumulated by the chunked read loop of streamChannelToDisplay:
the data bytes forwarded to EPD_SendData, bytesReceived, the diagnostic
counters, the elapsed milliseconds, and how the loop ended. -/
structure LoopResult where
  writes : List Nat
  bytesReceived : Nat
  counters : Counters
  elapsed : Nat
  outcome : StreamOutcome

deriving instance DecidableEq for LoopResult

/-- The chunked read loop of streamChannelToDisplay.  The peer is modelled as
the bytes currently buffered in the WiFiClient stream (buf) plus a schedule of
arrivals: events lists, for each successive 10 ms wait tick of the idle branch,
the bytes that become available during that tick ([] for a tick in which
nothing arrives); when the schedule is exhausted the connection is down, so
http.connected() is modelled as buf or events being nonempty.  Each iteration
mirrors the source: while connected and bytesReceived below both expectedBytes
and TOTAL_BYTES, either read a chunk bounded by the remaining expectedBytes,
the remaining TOTAL_BYTES and the 1024-byte cap, classify and forward each
byte, or wait 10 ms and return the timeout failure once more than 30000 ms
have elapsed. -/
def streamLoop (expected : Int) (events : List (List Nat)) (buf : List Nat)
    (recv : Nat) (cnt : Counters) (elapsed : Nat) : LoopResult :=
  if h : (buf ≠ [] ∨ events ≠ []) ∧ (recv : Int) < expected ∧ recv < TOTAL_BYTES then
    if hb : buf = [] then
      match events with
      | [] =>
          { writes := [], bytesReceived := recv, counters := cnt,
            elapsed := elapsed, outcome := StreamOutcome.done }
      | e :: evs =>
          if elapsed + 10 > 30000 then
            { writes := [], bytesReceived := recv, counters := cnt,
              elapsed := elapsed + 10, outcome := StreamOutcome.timeout }
          else
            streamLoop expected evs e recv cnt (elapsed + 10)
    else
      let maxToRead : Int := min (expected - (recv : Int)) ((TOTAL_BYTES : Int) - (recv : Int))
      let k : Nat := min (min buf.length maxToRead.toNat) 1024
      let taken := buf.take k
      let r := streamLoop expected events (buf.drop k) (recv + k)
        (taken.foldl countByte cnt) elapsed
      { r with writes := taken ++ r.writes }
  else
    { writes := [], bytesReceived := recv, counters := cnt,
      elapsed := elapsed, outcome := StreamOutcome.done }
termination_by events.length + events.flatten.length + buf.length
decreasing_by
  · simp [List.flatten]
    omega
  · have hb' : 0 < buf.length := List.length_pos.mpr hb
    have h1 := h.2.1
    have h2 := h.2.2
    simp only [List.length_drop, TOTAL_BYTES] at *
    omega

/-- The chunk size read by one data iteration of the loop: bounded by the bytes
available in the buffer, by the remaining expectedBytes and TOTAL_BYTES, and by
the 1024-byte cap (names the size computation of the data branch of streamLoop). -/
def readSize (expected : Int) (buf : List Nat) (recv : Nat) : Nat :=
  min (min buf.length (min (expected - (recv : Int)) ((TOTAL_BYTES : Int) - (recv : Int))).toNat) 1024

/-- The result of one streamChannelToDisplay call: all data bytes forwarded to
the panel (loop bytes plus any padding), bytesReceived from the peer, the final
counters, whether the 30-second timeout fired, whether the no-black-pixels
warning was emitted, and the boolean return value. -/
structure ChannelResult where
  writes : List Nat
  bytesReceived : Nat
  counters : Counters
  timedOut : Bool
  warned : Bool
  ret : Bool

deriving instance DecidableEq for ChannelResult

/-- streamChannelToDisplay: issues the channel prepare command (recorded by the
caller in the trace), runs the chunked read loop, and, unless the loop ended in
the timeout early-return, pads a short transfer up to TOTAL_BYTES with 0x33 for
the black/white channel (command 0x10, counting the pad bytes as white) or 0xFF
for the red channel (no counter update), emits the no-black-pixels warning when
the channel is black/white and blackBytes is zero, and returns bytesReceived > 0. -/
def streamChannelToDisplay (channelCommand : Nat) (expectedBytes : Int)
    (buf0 : List Nat) (events : List (List Nat)) : ChannelResult :=
  let r := streamLoop expectedBytes events buf0 0 initialCounters 0
  match r.outcome with
  | StreamOutcome.timeout =>
      { writes := r.writes, bytesReceived := r.bytesReceived, counters := r.counters,
        timedOut := true, warned := false, ret := false }
  | StreamOutcome.done =>
      if r.bytesReceived < TOTAL_BYTES then
        let padCount := TOTAL_BYTES - r.bytesReceived
        let paddingValue : Nat := if channelCommand = 0x10 then 0x33 else 0xFF
        let cnt : Counters :=
          if channelCommand = 0x10 then
            { r.counters with whiteBytes := r.counters.whiteBytes + padCount }
          else r.counters
        { writes := r.writes ++ List.replicate padCount paddingValue,
          bytesReceived := r.bytesReceived, counters := cnt, timedOut := false,
          warned := decide (channelCommand = 0x10 ∧ cnt.blackBytes = 0),
          ret := decide (0 < r.bytesReceived) }
      else
        { writes := r.writes, bytesReceived := r.bytesReceived, counters := r.counters,
          timedOut := false,
          warned := decide (channelCommand = 0x10 ∧ r.counters.blackBytes = 0),
          ret := decide (0 < r.bytesReceived) }

/-- One HTTP GET exchange as seen by the sketch: the status code returned by
http.GET(), the content length returned by http.getSize() (negative when the
header is missing), and the body as the initially buffered bytes plus the
arrival schedule consumed by streamLoop. -/
structure HttpResponse where
  status : Int
  contentLength : Int
  buf0 : List Nat
  events : List (List Nat)

/-- HTTP_CODE_OK. -/
def HTTP_CODE_OK : Int := 200

/-- Events of an update attempt: the two HTTP GET requests and every panel-bus
transaction. -/
inductive OrchEv where
  | getBW
  | getRed
  | panel (op : PanelOp)

deriving instance DecidableEq for OrchEv

/-- A forwarded data byte as a trace event. -/
def dataEv (b : Nat) : OrchEv :=
  OrchEv.panel (PanelOp.data b)

/-- downloadAndStreamBW: GET the black/white endpoint; on a non-200 status
return false at once; otherwise send the 0x10 prepare command and stream the
body through streamChannelToDisplay, returning its result. -/
def downloadAndStreamBW (resp : HttpResponse) : List OrchEv × Bool :=
  if resp.status ≠ HTTP_CODE_OK then
    ([OrchEv.getBW], false)
  else
    let r := streamChannelToDisplay 0x10 resp.contentLength resp.buf0 resp.events
    (OrchEv.getBW :: OrchEv.panel (PanelOp.cmd 0x10) :: r.writes.map dataEv, r.ret)

/-- downloadAndStreamRed: GET the red endpoint; on a non-200 status send the
0x13 prepare command, write TOTAL_BYTES bytes of 0xFF (disable red everywhere)
and return true; otherwise send 0x13 and stream the body through
streamChannelToDisplay, returning its result. -/
def downloadAndStreamRed (resp : HttpResponse) : List OrchEv × Bool :=
  if resp.status ≠ HTTP_CODE_OK then
    (OrchEv.getRed :: OrchEv.panel (PanelOp.cmd 0x13)
      :: (List.replicate TOTAL_BYTES 0xFF).map dataEv, true)
  else
    let r := streamChannelToDisplay 0x13 resp.contentLength resp.buf0 resp.events
    (OrchEv.getRed :: OrchEv.panel (PanelOp.cmd 0x13) :: r.writes.map dataEv, r.ret)

/-- downloadAndDisplayCalendar: with WiFi up, run the display init, stream the
black/white channel (aborting the update if that fails), stream the red channel
(aborting if that fails), then issue the refresh.  Returns the full event trace
and the success flag. -/
def downloadAndDisplayCalendar (wifiConnected : Bool) (bwResp redResp : HttpResponse) :
    List OrchEv × Bool :=
  if !wifiConnected then
    ([], false)
  else
    let initT := EPD_7in5_V1_Init.map OrchEv.panel
    let bw := downloadAndStreamBW bwResp
    if !bw.2 then
      (initT ++ bw.1, false)
    else
      let red := downloadAndStreamRed redResp
      if !red.2 then
        (initT ++ bw.1 ++ red.1, false)
      else
        (initT ++ bw.1 ++ red.1 ++ EPD_7IN5_V1_Show.map OrchEv.panel, true)

/-- COLOR_BLACK of the pattern-demo sketch. -/
def COLOR_BLACK : Int := 0

/-- COLOR_WHITE of the pattern-demo sketch. -/
def COLOR_WHITE : Int := 1

/-- COLOR_RED of the pattern-demo sketch. -/
def COLOR_RED : Int := 2

/-- The black/white-channel byte chosen by drawColorPattern for a pixel color
(default branch sends white). -/
def bwValueOf (color : Int) : Nat :=
  if color = COLOR_BLACK then 0x00
  else if color = COLOR_WHITE then 0x33
  else if color = COLOR_RED then 0xCC
  else 0x33

/-- The red-channel byte chosen by drawColorPattern for a pixel color
(default branch sends no-red). -/
def redValueOf (color : Int) : Nat :=
  if color = COLOR_BLACK then 0x00
  else if color = COLOR_WHITE then 0x00
  else if color = COLOR_RED then 0xFF
  else 0x00

/-- drawColorPattern of the pattern-demo sketch: prepare black/white (0x10),
write the TOTAL_BYTES black/white bytes of the pattern, prepare red (0x13),
write the TOTAL_BYTES red bytes, then refresh via EPD_7IN5_V1_Show. -/
def drawColorPattern (getPixelColor : Nat → Int) : List PanelOp :=
  PanelOp.cmd 0x10
    :: (List.range TOTAL_BYTES).map (fun i => PanelOp.data (bwValueOf (getPixelColor i)))
  ++ PanelOp.cmd 0x13
    :: (List.range TOTAL_BYTES).map (fun i => PanelOp.data (redValueOf (getPixelColor i)))
  ++ EPD_7IN5_V1_Show

/-- Exit equation of the read loop: when the while-condition is false the loop
returns the accumulated state with the done outcome. -/
theorem streamLoop_exit (expected : Int) (events : List (List Nat)) (buf : List Nat)
    (recv : Nat) (cnt : Counters) (elapsed : Nat)
    (h : ¬((buf ≠ [] ∨ events ≠ []) ∧ (recv : Int) < expected ∧ recv < TOTAL_BYTES)) :
    streamLoop expected events buf recv cnt elapsed =
      { writes := [], bytesReceived := recv, counters := cnt,
        elapsed := elapsed, outcome := StreamOutcome.done } := by
  rw [streamLoop.eq_def, dif_neg h]

/-- Timeout equation of the read loop: with an empty buffer and more than
30000 ms elapsed after the 10 ms wait, the loop returns the timeout failure. -/
theorem streamLoop_timeout_step (expected : Int) (e : List Nat) (evs : List (List Nat))
    (recv : Nat) (cnt : Counters) (elapsed : Nat)
    (h : (([] : List Nat) ≠ [] ∨ e :: evs ≠ []) ∧ (recv : Int) < expected ∧ recv < TOTAL_BYTES)
    (ht : elapsed + 10 > 30000) :
    streamLoop expected (e :: evs) [] recv cnt elapsed =
      { writes := [], bytesReceived := recv, counters := cnt,
        elapsed := elapsed + 10, outcome := StreamOutcome.timeout } := by
  rw [streamLoop.eq_def, dif_pos h, dif_pos rfl]
  simp [ht]

/-- Wait equation of the read loop: with an empty buffer and no timeout, the
loop waits 10 ms, during which the next scheduled arrival lands in the buffer. -/
theorem streamLoop_idle_step (expected : Int) (e : List Nat) (evs : List (List Nat))
    (recv : Nat) (cnt : Counters) (elapsed : Nat)
    (h : (([] : List Nat) ≠ [] ∨ e :: evs ≠ []) ∧ (recv : Int) < expected ∧ recv < TOTAL_BYTES)
    (ht : ¬(elapsed + 10 > 30000)) :
    streamLoop expected (e :: evs) [] recv cnt elapsed =
      streamLoop expected evs e recv cnt (elapsed + 10) := by
  rw [streamLoop.eq_def, dif_pos h, dif_pos rfl]
  simp [ht]

/-- Read equation of the loop: with a nonempty buffer the loop consumes a
readSize chunk, counts and forwards its bytes, and continues. -/
theorem streamLoop_data_step (expected : Int) (events : List (List Nat)) (buf : List Nat)
    (recv : Nat) (cnt : Counters) (elapsed : Nat)
    (h : (buf ≠ [] ∨ events ≠ []) ∧ (recv : Int) < expected ∧ recv < TOTAL_BYTES)
    (hb : buf ≠ []) :
    streamLoop expected events buf recv cnt elapsed =
      { streamLoop expected events (buf.drop (readSize expected buf recv))
          (recv + readSize expected buf recv)
          ((buf.take (readSize expected buf recv)).foldl countByte cnt) elapsed with
        writes := buf.take (readSize expected buf recv)
          ++ (streamLoop expected events (buf.drop (readSize expected buf recv))
              (recv + readSize expected buf recv)
              ((buf.take (readSize expected buf recv)).foldl countByte cnt) elapsed).writes } := by
  rw [streamLoop.eq_def, dif_pos h, dif_neg hb]
  rfl

/-- The chunk size of a read iteration is positive while the loop condition
holds, and never exceeds the buffered bytes. -/
theorem readSize_pos (expected : Int) (buf : List Nat) (recv : Nat)
    (h1 : (recv : Int) < expected) (h2 : recv < TOTAL_BYTES) (hb : buf ≠ []) :
    0 < readSize expected buf recv ∧ readSize expected buf recv ≤ buf.length := by
  have hb' : 0 < buf.length := List.length_pos.mpr hb
  unfold readSize
  unfold TOTAL_BYTES at *
  omega

/-- Classifying one byte increments exactly one diagnostic counter. -/
theorem sumCounters_countByte (c : Counters) (b : Nat) :
    sumCounters (countByte c b) = sumCounters c + 1 := by
  unfold countByte
  split_ifs <;> simp [sumCounters] <;> omega

/-- Classifying a byte list adds its length to the counter sum. -/
theorem sumCounters_foldl (l : List Nat) : ∀ c : Counters,
    sumCounters (l.foldl countByte c) = sumCounters c + l.length := by
  induction l with
  | nil => simp
  | cons b t ih =>
      intro c
      simp only [List.foldl_cons, ih, sumCounters_countByte, List.length_cons]
      omega

/-- Invariant carried by the read loop: bytesReceived advances exactly by the
forwarded bytes; the forwarded bytes are an in-order prefix of the peer bytes
(buffered plus scheduled); the counters are the fold of the classifier over the
forwarded bytes; bytesReceived never exceeds TOTAL_BYTES nor expectedBytes. -/
def LoopSpec (expected : Int) (events : List (List Nat)) (buf : List Nat)
    (recv : Nat) (cnt : Counters) (r : LoopResult) : Prop :=
  r.bytesReceived = recv + r.writes.length
  ∧ r.writes = (buf ++ events.flatten).take r.writes.length
  ∧ r.counters = r.writes.foldl countByte cnt
  ∧ (recv ≤ TOTAL_BYTES → r.bytesReceived ≤ TOTAL_BYTES)
  ∧ (r.bytesReceived : Int) ≤ max expected (recv : Int)

/-- The read loop satisfies its invariant. -/
theorem streamLoop_spec (expected : Int) (events : List (List Nat)) (buf : List Nat)
    (recv : Nat) (cnt : Counters) (elapsed : Nat) :
    LoopSpec expected events buf recv cnt (streamLoop expected events buf recv cnt elapsed) := by
  induction events, buf, recv, cnt, elapsed using streamLoop.induct expected with
  | case1 recv cnt elapsed h h' =>
      simp at h
  | case2 recv cnt elapsed e evs ht h h' =>
      rw [streamLoop_timeout_step expected e evs recv cnt elapsed h ht]
      simp [LoopSpec]
  | case3 recv cnt elapsed e evs ht h h' ih =>
      rw [streamLoop_idle_step expected e evs recv cnt elapsed h ht]
      simpa [LoopSpec] using ih
  | case4 events buf recv cnt elapsed h hb mtr kk tkn ih =>
      rw [streamLoop_data_step expected events buf recv cnt elapsed h hb]
      have ih' : LoopSpec expected events (buf.drop (readSize expected buf recv))
          (recv + readSize expected buf recv)
          ((buf.take (readSize expected buf recv)).foldl countByte cnt)
          (streamLoop expected events (buf.drop (readSize expected buf recv))
            (recv + readSize expected buf recv)
            ((buf.take (readSize expected buf recv)).foldl countByte cnt) elapsed) := ih
      set k := readSize expected buf recv with hkdef
      set r := streamLoop expected events (buf.drop k) (recv + k)
        ((buf.take k).foldl countByte cnt) elapsed with hrdef
      obtain ⟨ih1, ih2, ih3, ih4, ih5⟩ := ih'
      have hpos := readSize_pos expected buf recv h.2.1 h.2.2 hb
      have htl : (buf.take k).length = k := by
        rw [List.length_take]
        omega
      have h21 := h.2.1
      have h22 := h.2.2
      have hkTot : recv + k ≤ TOTAL_BYTES := by
        have hk2 : k = readSize expected buf recv := hkdef
        unfold readSize TOTAL_BYTES at *
        omega
      have hkExp : ((recv + k : Nat) : Int) ≤ expected := by
        have hk2 : k = readSize expected buf recv := hkdef
        push_cast
        unfold readSize TOTAL_BYTES at *
        omega
      refine ⟨?_, ?_, ?_, ?_, ?_⟩
      · simp only [List.length_append, htl, ih1]
        omega
      · show buf.take k ++ r.writes
            = (buf ++ events.flatten).take (buf.take k ++ r.writes).length
        calc buf.take k ++ r.writes
            = buf.take k ++ (buf.drop k ++ events.flatten).take r.writes.length := by
              rw [← ih2]
          _ = (buf.take k ++ (buf.drop k ++ events.flatten)).take
                ((buf.take k).length + r.writes.length) := by
              rw [List.take_append]
          _ = (buf ++ events.flatten).take (buf.take k ++ r.writes).length := by
              rw [← List.append_assoc, List.take_append_drop, List.length_append]
      · show r.counters = (buf.take k ++ r.writes).foldl countByte cnt
        rw [ih3, ← List.foldl_append]
      · intro _
        exact ih4 hkTot
      · show (r.bytesReceived : Int) ≤ max expected (recv : Int)
        have := ih5
        omega
  | case5 events buf recv cnt elapsed h =>
      rw [streamLoop_exit expected events buf recv cnt elapsed h]
      simp [LoopSpec]

/-- A loop that only ever sees empty wait ticks (no data at all) idles until
the 30-second deadline passes and then returns the timeout failure with
nothing forwarded. -/
theorem streamLoop_allIdle_timeout (expected : Int) (recv : Nat) (cnt : Counters) :
    ∀ (n elapsed : Nat), 1 ≤ n → (recv : Int) < expected → recv < TOTAL_BYTES →
      30000 < elapsed + 10 * n →
      (streamLoop expected (List.replicate n []) [] recv cnt elapsed).outcome
          = StreamOutcome.timeout
      ∧ (streamLoop expected (List.replicate n []) [] recv cnt elapsed).writes = []
      ∧ (streamLoop expected (List.replicate n []) [] recv cnt elapsed).bytesReceived = recv := by
  intro n
  induction n with
  | zero =>
      intro elapsed h1 _ _ _
      omega
  | succ m ihm =>
      intro elapsed _ h2 h3 h4
      have hcond : (([] : List Nat) ≠ [] ∨ ([] : List Nat) :: List.replicate m ([] : List Nat) ≠ [])
          ∧ (recv : Int) < expected ∧ recv < TOTAL_BYTES :=
        ⟨Or.inr (by simp), h2, h3⟩
      rw [List.replicate_succ]
      by_cases ht : elapsed + 10 > 30000
      · rw [streamLoop_timeout_step expected [] (List.replicate m []) recv cnt elapsed hcond ht]
        simp
      · rw [streamLoop_idle_step expected [] (List.replicate m []) recv cnt elapsed hcond ht]
        exact ihm (elapsed + 10) (by omega) h2 h3 (by omega)

/-- A loop whose arrival schedule is short enough that the 30-second deadline
cannot pass (at most 10 ms elapse per scheduled tick) never returns the
timeout failure. -/
theorem streamLoop_no_timeout (expected : Int) (events : List (List Nat)) (buf : List Nat)
    (recv : Nat) (cnt : Counters) (elapsed : Nat) :
    elapsed + 10 * events.length ≤ 30000 →
    (streamLoop expected events buf recv cnt elapsed).outcome = StreamOutcome.done := by
  induction events, buf, recv, cnt, elapsed using streamLoop.induct expected with
  | case1 recv cnt elapsed h h' =>
      intro _
      simp at h
  | case2 recv cnt elapsed e evs ht h h' =>
      intro hlen
      exfalso
      simp only [List.length_cons] at hlen
      omega
  | case3 recv cnt elapsed e evs ht h h' ih =>
      intro hlen
      rw [streamLoop_idle_step expected e evs recv cnt elapsed h ht]
      apply ih
      simp only [List.length_cons] at hlen
      omega
  | case4 events buf recv cnt elapsed h hb mtr kk tkn ih =>
      intro hlen
      rw [streamLoop_data_step expected events buf recv cnt elapsed h hb]
      simpa using ih hlen
  | case5 events buf recv cnt elapsed h =>
      intro _
      rw [streamLoop_exit expected events buf recv cnt elapsed h]

/-- Full behavioural characterization of one streamChannelToDisplay call in
terms of its inner read loop: bytesReceived is bounded by TOTAL_BYTES and by
expectedBytes; the timeout flag mirrors the loop outcome; the return value is
true exactly when the loop did not time out and at least one byte was
received; in the non-timeout case the panel receives the in-order received
prefix padded with the channel's padding byte up to exactly TOTAL_BYTES; the
counter sum is TOTAL_BYTES for a non-timeout black/white transfer and exactly
bytesReceived for any other channel; a completed zero-byte transfer raises the
no-black-pixels warning for the black/white channel, returns false and writes
pure padding. -/
theorem streamChannel_spec (cmd : Nat) (expected : Int) (buf0 : List Nat)
    (events : List (List Nat)) (res : ChannelResult) (r : LoopResult)
    (hres : res = streamChannelToDisplay cmd expected buf0 events)
    (hr : r = streamLoop expected events buf0 0 initialCounters 0) :
    res.bytesReceived = r.bytesReceived
    ∧ res.bytesReceived ≤ TOTAL_BYTES
    ∧ (res.bytesReceived : Int) ≤ max expected 0
    ∧ (res.timedOut = true ↔ r.outcome = StreamOutcome.timeout)
    ∧ (res.ret = true ↔ (res.timedOut = false ∧ 0 < res.bytesReceived))
    ∧ (res.timedOut = false →
        res.writes
          = (buf0 ++ events.flatten).take res.bytesReceived
            ++ List.replicate (TOTAL_BYTES - res.bytesReceived)
                (if cmd = 0x10 then 0x33 else 0xFF)
        ∧ res.writes.length = TOTAL_BYTES)
    ∧ (cmd = 0x10 → res.timedOut = false → sumCounters res.counters = TOTAL_BYTES)
    ∧ (cmd ≠ 0x10 → sumCounters res.counters = res.bytesReceived)
    ∧ (res.timedOut = false → res.bytesReceived = 0 →
        res.warned = decide (cmd = 0x10) ∧ res.ret = false
        ∧ res.writes = List.replicate TOTAL_BYTES (if cmd = 0x10 then 0x33 else 0xFF))
    ∧ (res.timedOut = true →
        res.writes = (buf0 ++ events.flatten).take res.bytesReceived) := by
  have hs := streamLoop_spec expected events buf0 0 initialCounters 0
  rw [← hr] at hs
  obtain ⟨hs1, hs2, hs3, hs4, hs5⟩ := hs
  have hlen : r.writes.length = r.bytesReceived := by omega
  have hwr : r.writes = (buf0 ++ events.flatten).take r.bytesReceived := by
    rw [hs2, hlen]
  have hsum : sumCounters r.counters = r.bytesReceived := by
    rw [hs3, sumCounters_foldl]
    simp [initialCounters, sumCounters, hlen]
  have hrecvK : r.bytesReceived ≤ TOTAL_BYTES := hs4 (by simp)
  have hrecvE : (r.bytesReceived : Int) ≤ max expected 0 := by simpa using hs5
  simp only [streamChannelToDisplay] at hres
  rw [← hr] at hres
  cases houtcome : r.outcome with
  | timeout =>
      rw [houtcome] at hres
      subst hres
      refine ⟨rfl, hrecvK, hrecvE, by simp [houtcome], by simp, by simp, by simp,
        fun _ => hsum, by simp, fun _ => hwr⟩
  | done =>
      rw [houtcome] at hres
      by_cases hlt : r.bytesReceived < TOTAL_BYTES
      · rw [if_pos hlt] at hres
        subst hres
        refine ⟨rfl, hrecvK, hrecvE, by simp [houtcome], by simp, ?_, ?_, ?_, ?_, by simp⟩
        · intro _
          constructor
          · show r.writes ++ _ = _
            rw [hwr]
          · show (r.writes ++ _).length = TOTAL_BYTES
            rw [List.length_append, hlen, List.length_replicate]
            omega
        · intro hcmd _
          show sumCounters (if cmd = 0x10 then _ else _) = TOTAL_BYTES
          rw [if_pos hcmd]
          unfold sumCounters at hsum ⊢
          simp only
          omega
        · intro hcmd
          show sumCounters (if cmd = 0x10 then _ else _) = r.bytesReceived
          rw [if_neg hcmd]
          exact hsum
        · intro _ hz
          have hz' : r.bytesReceived = 0 := hz
          have hwnil : r.writes = [] := by
            have : r.writes.length = 0 := by omega
            exact List.length_eq_zero.mp this
          have hcnt : r.counters = initialCounters := by
            rw [hs3, hwnil]
            rfl
          refine ⟨?_, by simp [hz'], ?_⟩
          · show decide (cmd = 0x10 ∧ (if cmd = 0x10 then
                  { r.counters with whiteBytes :=
                      r.counters.whiteBytes + (TOTAL_BYTES - r.bytesReceived) }
                else r.counters).blackBytes = 0)
                = decide (cmd = 0x10)
            by_cases hcmd : cmd = 0x10
            · simp [hcmd, hcnt, initialCounters]
            · simp [hcmd]
          · show r.writes ++ _ = _
            rw [hwnil, hz']
            simp
      · rw [if_neg hlt] at hres
        subst hres
        have heq : r.bytesReceived = TOTAL_BYTES := by omega
        refine ⟨rfl, hrecvK, hrecvE, by simp [houtcome], by simp, ?_, ?_, fun _ => hsum, ?_,
          by simp⟩
        · intro _
          constructor
          · show r.writes = _
            rw [hwr, heq]
            simp
          · show r.writes.length = TOTAL_BYTES
            omega
        · intro _ _
          rw [hsum, heq]
        · intro _ hz
          exfalso
          have hz' : r.bytesReceived = 0 := hz
          rw [heq] at hz'
          simp [TOTAL_BYTES] at hz'

/-- Non-200 black/white GET: the stream decoder is never entered and the call
fails at once. -/
theorem downloadAndStreamBW_fail (resp : HttpResponse) (h : ¬resp.status = HTTP_CODE_OK) :
    downloadAndStreamBW resp = ([OrchEv.getBW], false) := by
  simp [downloadAndStreamBW, h]

/-- Successful (status 200) black/white GET: prepare command 0x10 followed by the
decoded stream. -/
theorem downloadAndStreamBW_ok (resp : HttpResponse) (h : resp.status = HTTP_CODE_OK) :
    downloadAndStreamBW resp
      = (OrchEv.getBW :: OrchEv.panel (PanelOp.cmd 0x10)
          :: (streamChannelToDisplay 0x10 resp.contentLength resp.buf0 resp.events).writes.map
              dataEv,
        (streamChannelToDisplay 0x10 resp.contentLength resp.buf0 resp.events).ret) := by
  simp [downloadAndStreamBW, h]

/-- Non-200 red GET: the fallback writes the full no-red plane and reports
success. -/
theorem downloadAndStreamRed_fail (resp : HttpResponse) (h : ¬resp.status = HTTP_CODE_OK) :
    downloadAndStreamRed resp
      = (OrchEv.getRed :: OrchEv.panel (PanelOp.cmd 0x13)
          :: (List.replicate TOTAL_BYTES 0xFF).map dataEv, true) := by
  simp [downloadAndStreamRed, h]

/-- Successful (status 200) red GET: prepare command 0x13 followed by the decoded
stream. -/
theorem downloadAndStreamRed_ok (resp : HttpResponse) (h : resp.status = HTTP_CODE_OK) :
    downloadAndStreamRed resp
      = (OrchEv.getRed :: OrchEv.panel (PanelOp.cmd 0x13)
          :: (streamChannelToDisplay 0x13 resp.contentLength resp.buf0 resp.events).writes.map
              dataEv,
        (streamChannelToDisplay 0x13 resp.contentLength resp.buf0 resp.events).ret) := by
  simp [downloadAndStreamRed, h]

/-- Update attempt when the black/white phase fails: no red request, no
refresh. -/
theorem calendar_eq_bwfail (bwResp redResp : HttpResponse)
    (h : (downloadAndStreamBW bwResp).2 = false) :
    downloadAndDisplayCalendar true bwResp redResp
      = (EPD_7in5_V1_Init.map OrchEv.panel ++ (downloadAndStreamBW bwResp).1, false) := by
  simp [downloadAndDisplayCalendar, h]

/-- Update attempt when the black/white phase succeeds and the red phase
fails: no refresh. -/
theorem calendar_eq_redfail (bwResp redResp : HttpResponse)
    (h1 : (downloadAndStreamBW bwResp).2 = true)
    (h2 : (downloadAndStreamRed redResp).2 = false) :
    downloadAndDisplayCalendar true bwResp redResp
      = (EPD_7in5_V1_Init.map OrchEv.panel ++ (downloadAndStreamBW bwResp).1
          ++ (downloadAndStreamRed redResp).1, false) := by
  simp [downloadAndDisplayCalendar, h1, h2]

/-- Update attempt when both phases succeed: the refresh command 0x12 closes
the trace. -/
theorem calendar_eq_ok (bwResp redResp : HttpResponse)
    (h1 : (downloadAndStreamBW bwResp).2 = true)
    (h2 : (downloadAndStreamRed redResp).2 = true) :
    downloadAndDisplayCalendar true bwResp redResp
      = (EPD_7in5_V1_Init.map OrchEv.panel ++ (downloadAndStreamBW bwResp).1
          ++ (downloadAndStreamRed redResp).1 ++ [OrchEv.panel (PanelOp.cmd 0x12)], true) := by
  simp [downloadAndDisplayCalendar, h1, h2, EPD_7IN5_V1_Show]

/-- The red GET request event never occurs among forwarded data bytes. -/
theorem getRed_not_mem_dataMap (l : List Nat) : OrchEv.getRed ∉ l.map dataEv := by
  simp [dataEv]

/-- The refresh command never occurs among forwarded data bytes. -/
theorem refresh_not_mem_dataMap (l : List Nat) :
    OrchEv.panel (PanelOp.cmd 0x12) ∉ l.map dataEv := by
  simp [dataEv]

/-- The red GET request event does not occur in the init trace. -/
theorem getRed_not_mem_init : OrchEv.getRed ∉ EPD_7in5_V1_Init.map OrchEv.panel := by
  decide

/-- The refresh command does not occur in the init trace. -/
theorem refresh_not_mem_init :
    OrchEv.panel (PanelOp.cmd 0x12) ∉ EPD_7in5_V1_Init.map OrchEv.panel := by
  decide

/-- The refresh command byte is not part of the init sequence. -/
theorem refresh_not_mem_initOps : PanelOp.cmd 0x12 ∉ EPD_7in5_V1_Init := by
  decide

/-- A channel transfer whose read loop completed did not time out. -/
theorem streamChannel_not_timedOut (cmd : Nat) (expected : Int) (buf0 : List Nat)
    (events : List (List Nat))
    (h : (streamLoop expected events buf0 0 initialCounters 0).outcome = StreamOutcome.done) :
    (streamChannelToDisplay cmd expected buf0 events).timedOut = false := by
  obtain ⟨-, -, -, h4, -, -, -, -, -⟩ := streamChannel_spec cmd expected buf0 events _ _ rfl rfl
  rw [h] at h4
  rcases hb : (streamChannelToDisplay cmd expected buf0 events).timedOut
  · rfl
  · exact absurd (h4.mp hb) (by simp)

/-- A channel transfer whose read loop hit the deadline reports the timeout. -/
theorem streamChannel_timedOut (cmd : Nat) (expected : Int) (buf0 : List Nat)
    (events : List (List Nat))
    (h : (streamLoop expected events buf0 0 initialCounters 0).outcome
        = StreamOutcome.timeout) :
    (streamChannelToDisplay cmd expected buf0 events).timedOut = true := by
  obtain ⟨-, -, -, h4, -, -, -, -, -⟩ := streamChannel_spec cmd expected buf0 events _ _ rfl rfl
  exact h4.mpr h

/-- bytesReceived of the transfer equals bytesReceived of its read loop. -/
theorem streamChannel_recv_eq (cmd : Nat) (expected : Int) (buf0 : List Nat)
    (events : List (List Nat)) (r : LoopResult)
    (hr : streamLoop expected events buf0 0 initialCounters 0 = r) :
    (streamChannelToDisplay cmd expected buf0 events).bytesReceived = r.bytesReceived := by
  obtain ⟨h1, -, -, -, -, -, -, -, -⟩ := streamChannel_spec cmd expected buf0 events _ _ rfl rfl
  rw [h1, hr]

/-- A completed transfer with at least one byte received returns true. -/
theorem streamChannel_ret_true (cmd : Nat) (expected : Int) (buf0 : List Nat)
    (events : List (List Nat))
    (hnt : (streamChannelToDisplay cmd expected buf0 events).timedOut = false)
    (hpos : 0 < (streamChannelToDisplay cmd expected buf0 events).bytesReceived) :
    (streamChannelToDisplay cmd expected buf0 events).ret = true := by
  obtain ⟨-, -, -, -, h5, -, -, -, -⟩ := streamChannel_spec cmd expected buf0 events _ _ rfl rfl
  exact h5.mpr ⟨hnt, hpos⟩

/-- A transfer that received nothing returns false. -/
theorem streamChannel_ret_false_of_zero (cmd : Nat) (expected : Int) (buf0 : List Nat)
    (events : List (List Nat))
    (hz : (streamChannelToDisplay cmd expected buf0 events).bytesReceived = 0) :
    (streamChannelToDisplay cmd expected buf0 events).ret = false := by
  obtain ⟨-, -, -, -, h5, -, -, -, -⟩ := streamChannel_spec cmd expected buf0 events _ _ rfl rfl
  rcases hb : (streamChannelToDisplay cmd expected buf0 events).ret
  · rfl
  · have := (h5.mp hb).2
    omega

/-- A transfer that timed out returns false. -/
theorem streamChannel_ret_false_of_timeout (cmd : Nat) (expected : Int) (buf0 : List Nat)
    (events : List (List Nat))
    (ht : (streamChannelToDisplay cmd expected buf0 events).timedOut = true) :
    (streamChannelToDisplay cmd expected buf0 events).ret = false := by
  obtain ⟨-, -, -, -, h5, -, -, -, -⟩ := streamChannel_spec cmd expected buf0 events _ _ rfl rfl
  rcases hb : (streamChannelToDisplay cmd expected buf0 events).ret
  · rfl
  · have := (h5.mp hb).1
    rw [ht] at this
    exact absurd this (by simp)

/-- Concrete run: a loop with no buffered bytes and no arrivals exits at once,
having received nothing. -/
theorem evalLoop_empty (expected : Int) :
    streamLoop expected [] [] 0 initialCounters 0
      = { writes := [], bytesReceived := 0, counters := initialCounters,
          elapsed := 0, outcome := StreamOutcome.done } :=
  streamLoop_exit expected [] [] 0 initialCounters 0 (by simp)

/-- Concrete run: with a nonpositive declared length the loop-entry comparison
bytesReceived < expectedBytes is already false, so nothing is read even with a
byte available. -/
theorem evalLoop_nonpos (expected : Int) (buf0 : List Nat) (h : expected ≤ 0) :
    streamLoop expected [] buf0 0 initialCounters 0
      = { writes := [], bytesReceived := 0, counters := initialCounters,
          elapsed := 0, outcome := StreamOutcome.done } :=
  streamLoop_exit expected [] buf0 0 initialCounters 0 (by
    intro hcon
    have := hcon.2.1
    omega)

/-- Concrete run: declared length 1, one black byte buffered: the loop reads
exactly that byte and completes. -/
theorem evalLoop_onebyte_bw : streamLoop 1 [] [0x00] 0 initialCounters 0
    = { writes := [0x00], bytesReceived := 1,
        counters := { blackBytes := 1, whiteBytes := 0, redPrepBytes := 0, otherBytes := 0 },
        elapsed := 0, outcome := StreamOutcome.done } := by
  have hk : readSize 1 [0x00] 0 = 1 := by
    unfold readSize TOTAL_BYTES
    simp
  have hstep := streamLoop_data_step 1 [] [0x00] 0 initialCounters 0
    ⟨Or.inl (by simp), by norm_num, by norm_num [TOTAL_BYTES]⟩ (by simp)
  rw [hk] at hstep
  simp only [List.take, List.drop, List.foldl, Nat.zero_add, zero_add] at hstep
  rw [streamLoop_exit 1 [] [] 1 (countByte initialCounters 0x00) 0
    (by intro hcon; exact absurd hcon.2.1 (by norm_num))] at hstep
  rw [hstep]
  simp [countByte, initialCounters]

/-- Concrete run: declared length TOTAL_BYTES, one red-enable byte buffered:
the loop reads exactly that byte and completes. -/
theorem evalLoop_onebyte_red : streamLoop 122880 [] [0xFF] 0 initialCounters 0
    = { writes := [0xFF], bytesReceived := 1,
        counters := { blackBytes := 0, whiteBytes := 0, redPrepBytes := 0, otherBytes := 1 },
        elapsed := 0, outcome := StreamOutcome.done } := by
  have hk : readSize 122880 [0xFF] 0 = 1 := by
    unfold readSize TOTAL_BYTES
    simp
  have hstep := streamLoop_data_step 122880 [] [0xFF] 0 initialCounters 0
    ⟨Or.inl (by simp), by norm_num, by norm_num [TOTAL_BYTES]⟩ (by simp)
  rw [hk] at hstep
  simp only [List.take, List.drop, List.foldl, Nat.zero_add, zero_add] at hstep
  rw [streamLoop_exit 122880 [] [] 1 (countByte initialCounters 0xFF) 0
    (by intro hcon; simp at hcon)] at hstep
  rw [hstep]
  simp [countByte, initialCounters]

/-- Claim C9: EPD_7in5_V1_Init performs the hardware reset followed by exactly
the ordered command sequence 0x01 power setting (0x37 0x00), 0x00 panel
setting (0xCF 0x08), 0x06 booster soft-start (0xC7 0xCC 0x28), 0x04 power-on
followed by a wait-for-idle, 0x30 PLL (0x3C), 0x41 temperature calibration
(0x00), 0x50 VCOM/data-interval (0x77), 0x60 TCON (0x22), 0x61 resolution with
parameters 0x02 0x80 0x01 0x80, 0x82 VCM DC (0x1E), 0xE5 flash mode (0x03),
and finally the black/white prepare command 0x10. -/
theorem claim_C9 :
    EPD_7in5_V1_Init =
      [PanelOp.reset,
       PanelOp.cmd 0x01, PanelOp.data 0x37, PanelOp.data 0x00,
       PanelOp.cmd 0x00, PanelOp.data 0xCF, PanelOp.data 0x08,
       PanelOp.cmd 0x06, PanelOp.data 0xC7, PanelOp.data 0xCC, PanelOp.data 0x28,
       PanelOp.cmd 0x04, PanelOp.waitIdle,
       PanelOp.cmd 0x30, PanelOp.data 0x3C,
       PanelOp.cmd 0x41, PanelOp.data 0x00,
       PanelOp.cmd 0x50, PanelOp.data 0x77,
       PanelOp.cmd 0x60, PanelOp.data 0x22,
       PanelOp.cmd 0x61, PanelOp.data 0x02, PanelOp.data 0x80, PanelOp.data 0x01,
       PanelOp.data 0x80,
       PanelOp.cmd 0x82, PanelOp.data 0x1E,
       PanelOp.cmd 0xE5, PanelOp.data 0x03,
       PanelOp.cmd 0x10] := rfl

/-- Claim C1 counterexample: a black/white transfer whose peer sends nothing
for more than 30 seconds ends through the timeout early-return, so NOT exactly
TOTAL_BYTES bytes are written to the panel (nothing is, and no padding is
applied), refuting the claim for transfers that time out. -/
theorem claim_C1_counterexample :
    (streamChannelToDisplay 0x10 122880 [] (List.replicate 3001 [])).writes.length
      ≠ TOTAL_BYTES := by
  obtain ⟨ho1, ho2, ho3⟩ := streamLoop_allIdle_timeout 122880 0 initialCounters 3001 0
    (by norm_num) (by norm_num) (by norm_num [TOTAL_BYTES]) (by norm_num)
  have ht := streamChannel_timedOut 0x10 122880 [] (List.replicate 3001 []) ho1
  have hrecv := streamChannel_recv_eq 0x10 122880 [] (List.replicate 3001 []) _ rfl
  rw [ho3] at hrecv
  obtain ⟨-, -, -, -, -, -, -, -, -, h10⟩ :=
    streamChannel_spec 0x10 122880 [] (List.replicate 3001 []) _ _ rfl rfl
  rw [h10 ht, hrecv]
  simp only [List.take_zero, List.length_nil, TOTAL_BYTES]
  omega

/-- Claim C1 (amended): for every channel transfer through
streamChannelToDisplay that does not abort through the 30-second timeout,
exactly TOTAL_BYTES data bytes are written to the panel: the bytes received
from the peer (at most TOTAL_BYTES — anything beyond is truncated and never
written) followed by the channel's padding byte (0x33 for black/white, 0xFF
for red) for the remainder.  A transfer that times out returns early without
padding. -/
theorem claim_C1 (channelCommand : Nat) (expectedBytes : Int) (buf0 : List Nat)
    (events : List (List Nat))
    (h : (streamChannelToDisplay channelCommand expectedBytes buf0 events).timedOut = false) :
    (streamChannelToDisplay channelCommand expectedBytes buf0 events).writes.length
        = TOTAL_BYTES
    ∧ (streamChannelToDisplay channelCommand expectedBytes buf0 events).bytesReceived
        ≤ TOTAL_BYTES
    ∧ (streamChannelToDisplay channelCommand expectedBytes buf0 events).writes
        = (buf0 ++ events.flatten).take
            (streamChannelToDisplay channelCommand expectedBytes buf0 events).bytesReceived
          ++ List.replicate
              (TOTAL_BYTES
                - (streamChannelToDisplay channelCommand expectedBytes buf0 events).bytesReceived)
              (if channelCommand = 0x10 then 0x33 else 0xFF) := by
  obtain ⟨-, h2, -, -, -, h6, -, -, -⟩ :=
    streamChannel_spec channelCommand expectedBytes buf0 events _ _ rfl rfl
  obtain ⟨h61, h62⟩ := h6 h
  exact ⟨h62, h2, h61⟩

/-- Witness for claim C1 at a concrete input. -/
theorem claim_C1_witness :
    (streamChannelToDisplay 0x10 0 [] []).timedOut = false
    ∧ (streamChannelToDisplay 0x10 0 [] []).writes.length = TOTAL_BYTES := by
  have h : (streamChannelToDisplay 0x10 0 [] []).timedOut = false :=
    streamChannel_not_timedOut 0x10 0 [] [] (by rw [evalLoop_empty])
  exact ⟨h, (claim_C1 0x10 0 [] [] h).1⟩

/-- Claim C5 counterexample: with a declared length of 0, or -1 for a missing
content-length header, the loop-entry comparison is already false, so the
decoder reads NOTHING from the peer even though a byte is available, and the
whole plane is written as padding — refuting the claim that it still reads up
to targetLength bytes. -/
theorem claim_C5_counterexample :
    (streamChannelToDisplay 0x10 0 [0x00] []).bytesReceived = 0
    ∧ (streamChannelToDisplay 0x10 (-1) [0x00] []).bytesReceived = 0
    ∧ (streamChannelToDisplay 0x10 0 [0x00] []).writes = List.replicate TOTAL_BYTES 0x33 := by
  have h0 := streamChannel_recv_eq 0x10 0 [0x00] [] _ (evalLoop_nonpos 0 [0x00] (by norm_num))
  have h1 := streamChannel_recv_eq 0x10 (-1) [0x00] [] _
    (evalLoop_nonpos (-1) [0x00] (by norm_num))
  refine ⟨by simpa using h0, by simpa using h1, ?_⟩
  obtain ⟨-, -, -, -, -, -, -, -, h9, -⟩ :=
    streamChannel_spec 0x10 0 [0x00] [] _ _ rfl rfl
  have hnt := streamChannel_not_timedOut 0x10 0 [0x00] []
    (by rw [evalLoop_nonpos 0 [0x00] (by norm_num)])
  obtain ⟨-, -, hw⟩ := h9 hnt (by simpa using h0)
  simpa using hw

/-- Claim C5 (amended): the streaming loop reads at most
min(declaredLength, targetLength) bytes from the peer; when the declared
length is missing (negative) or zero the loop reads nothing at all — the
whole target is then written as padding, not read from the peer. -/
theorem claim_C5 (channelCommand : Nat) (expectedBytes : Int) (buf0 : List Nat)
    (events : List (List Nat)) :
    ((streamChannelToDisplay channelCommand expectedBytes buf0 events).bytesReceived : Int)
        ≤ max expectedBytes 0
    ∧ (streamChannelToDisplay channelCommand expectedBytes buf0 events).bytesReceived
        ≤ TOTAL_BYTES
    ∧ (expectedBytes ≤ 0 →
        (streamChannelToDisplay channelCommand expectedBytes buf0 events).bytesReceived = 0) := by
  obtain ⟨-, h2, h3, -, -, -, -, -, -⟩ :=
    streamChannel_spec channelCommand expectedBytes buf0 events _ _ rfl rfl
  refine ⟨h3, h2, fun hneg => ?_⟩
  omega

/-- Witness for claim C5 at a concrete input. -/
theorem claim_C5_witness :
    ((streamChannelToDisplay 0x10 0 [0x00] []).bytesReceived : Int) ≤ max 0 0
    ∧ (0 : Int) ≤ 0
    ∧ (streamChannelToDisplay 0x10 0 [0x00] []).bytesReceived = 0 :=
  ⟨(claim_C5 0x10 0 [0x00] []).1, by norm_num, (claim_C5 0x10 0 [0x00] []).2.2 (by norm_num)⟩

/-- Claim C7 counterexample: a red-channel transfer that receives one 0xFF
byte and is padded with 122879 more 0xFF bytes counts only the received byte
(as other); no pad byte is counted for the red channel, so the counter sum is
1, not TOTAL_BYTES — refuting the claim for the red channel. -/
theorem claim_C7_counterexample :
    sumCounters (streamChannelToDisplay 0x13 122880 [0xFF] []).counters ≠ TOTAL_BYTES := by
  obtain ⟨h1, -, -, -, -, -, -, h8, -, -⟩ :=
    streamChannel_spec 0x13 122880 [0xFF] [] _ _ rfl rfl
  rw [h8 (by norm_num), h1, evalLoop_onebyte_red]
  simp [TOTAL_BYTES]

/-- Claim C7 (amended): for the black/white channel (prepare command 0x10)
every transfer that does not time out ends with
blackBytes + whiteBytes + redPrepBytes + otherBytes = TOTAL_BYTES, each pad
byte counted as white; for the red channel (0x13) pad bytes are not counted at
all, so the counter sum equals exactly the number of bytes received from the
peer. -/
theorem claim_C7 (expectedBytes : Int) (buf0 : List Nat) (events : List (List Nat)) :
    ((streamChannelToDisplay 0x10 expectedBytes buf0 events).timedOut = false →
      sumCounters (streamChannelToDisplay 0x10 expectedBytes buf0 events).counters
        = TOTAL_BYTES)
    ∧ sumCounters (streamChannelToDisplay 0x13 expectedBytes buf0 events).counters
        = (streamChannelToDisplay 0x13 expectedBytes buf0 events).bytesReceived := by
  constructor
  · intro h
    obtain ⟨-, -, -, -, -, -, h7, -, -, -⟩ :=
      streamChannel_spec 0x10 expectedBytes buf0 events _ _ rfl rfl
    exact h7 rfl h
  · obtain ⟨-, -, -, -, -, -, -, h8, -, -⟩ :=
      streamChannel_spec 0x13 expectedBytes buf0 events _ _ rfl rfl
    exact h8 (by norm_num)

/-- Witness for claim C7 at a concrete input. -/
theorem claim_C7_witness :
    (streamChannelToDisplay 0x10 0 [] []).timedOut = false
    ∧ sumCounters (streamChannelToDisplay 0x10 0 [] []).counters = TOTAL_BYTES := by
  have h : (streamChannelToDisplay 0x10 0 [] []).timedOut = false :=
    streamChannel_not_timedOut 0x10 0 [] [] (by rw [evalLoop_empty])
  exact ⟨h, (claim_C7 0 [] []).1 h⟩

/-- Claim C6: a stream that yields no bytes at all for the whole 30-second
deadline (idle 10 ms ticks only) aborts with the timeout result and returns
false, while a stream whose bytes first arrive at the 29-second mark (2900
idle ticks, then a chunk) never times out. -/
theorem claim_C6 :
    (∀ (channelCommand : Nat) (expectedBytes : Int) (n : Nat),
      0 < expectedBytes → 3001 ≤ n →
      (streamChannelToDisplay channelCommand expectedBytes []
          (List.replicate n [])).timedOut = true
      ∧ (streamChannelToDisplay channelCommand expectedBytes []
          (List.replicate n [])).ret = false)
    ∧ (∀ (channelCommand : Nat) (expectedBytes : Int) (chunk : List Nat),
      (streamChannelToDisplay channelCommand expectedBytes []
          (List.replicate 2900 [] ++ [chunk])).timedOut = false) := by
  constructor
  · intro cmd expected n hexp hn
    obtain ⟨ho1, -, -⟩ := streamLoop_allIdle_timeout expected 0 initialCounters n 0
      (by omega) (by exact_mod_cast hexp) (by norm_num [TOTAL_BYTES]) (by omega)
    have ht := streamChannel_timedOut cmd expected [] (List.replicate n []) ho1
    exact ⟨ht, streamChannel_ret_false_of_timeout cmd expected [] (List.replicate n []) ht⟩
  · intro cmd expected chunk
    apply streamChannel_not_timedOut
    apply streamLoop_no_timeout
    simp only [List.length_append, List.length_replicate, List.length_singleton]
    omega

/-- Witness for claim C6 at concrete inputs. -/
theorem claim_C6_witness :
    ((0 : Int) < 122880 ∧ 3001 ≤ 3001
      ∧ (streamChannelToDisplay 0x10 122880 [] (List.replicate 3001 [])).timedOut = true)
    ∧ (streamChannelToDisplay 0x10 122880 []
        (List.replicate 2900 [] ++ [[0x00]])).timedOut = false :=
  ⟨⟨by norm_num, by norm_num,
      (claim_C6.1 0x10 122880 3001 (by norm_num) (by norm_num)).1⟩,
    claim_C6.2 0x10 122880 [0x00]⟩

/-- Concrete run: a 200 black/white response of declared length 1 delivering
one byte streams successfully. -/
theorem eval_bw_ok : (downloadAndStreamBW ⟨200, 1, [0x00], []⟩).2 = true := by
  rw [downloadAndStreamBW_ok _ rfl]
  exact streamChannel_ret_true 0x10 1 [0x00] []
    (streamChannel_not_timedOut 0x10 1 [0x00] [] (by rw [evalLoop_onebyte_bw]))
    (by rw [streamChannel_recv_eq 0x10 1 [0x00] [] _ evalLoop_onebyte_bw]; norm_num)

/-- Claim C4: if the black/white GET returns a non-success status, the update
aborts and returns failure with the trace ending right after that request: no
red-channel request is ever issued and no refresh command 0x12 is ever sent. -/
theorem claim_C4 (bwResp redResp : HttpResponse) (h : bwResp.status ≠ HTTP_CODE_OK) :
    downloadAndDisplayCalendar true bwResp redResp
      = (EPD_7in5_V1_Init.map OrchEv.panel ++ [OrchEv.getBW], false)
    ∧ OrchEv.getRed ∉ (downloadAndDisplayCalendar true bwResp redResp).1
    ∧ OrchEv.panel (PanelOp.cmd 0x12) ∉ (downloadAndDisplayCalendar true bwResp redResp).1 := by
  have hbw := downloadAndStreamBW_fail bwResp h
  have hcal := calendar_eq_bwfail bwResp redResp (by rw [hbw])
  rw [hbw] at hcal
  refine ⟨hcal, ?_, ?_⟩ <;> rw [hcal] <;> decide

/-- Witness for claim C4 at a concrete input. -/
theorem claim_C4_witness :
    (HttpResponse.mk 404 0 [] []).status ≠ HTTP_CODE_OK
    ∧ downloadAndDisplayCalendar true ⟨404, 0, [], []⟩ ⟨200, 0, [], []⟩
        = (EPD_7in5_V1_Init.map OrchEv.panel ++ [OrchEv.getBW], false) := by
  have h : (HttpResponse.mk 404 0 [] []).status ≠ HTTP_CODE_OK := by
    norm_num [HTTP_CODE_OK]
  exact ⟨h, (claim_C4 ⟨404, 0, [], []⟩ ⟨200, 0, [], []⟩ h).1⟩

/-- Claim C3: if the red GET returns a non-success status, the decoder is
bypassed: after the red prepare command 0x13, exactly TOTAL_BYTES bytes of
0xFF are written, nothing is read from the peer (the result is independent of
the response body), the call reports success, and — when the black/white phase
succeeded — the update proceeds to the refresh command 0x12 and returns
success. -/
theorem claim_C3 (redResp : HttpResponse) (h : redResp.status ≠ HTTP_CODE_OK) :
    downloadAndStreamRed redResp
      = (OrchEv.getRed :: OrchEv.panel (PanelOp.cmd 0x13)
          :: (List.replicate TOTAL_BYTES 0xFF).map dataEv, true)
    ∧ (∀ (contentLength : Int) (buf0 : List Nat) (events : List (List Nat)),
        downloadAndStreamRed ⟨redResp.status, contentLength, buf0, events⟩
          = downloadAndStreamRed redResp)
    ∧ (∀ bwResp : HttpResponse, (downloadAndStreamBW bwResp).2 = true →
        downloadAndDisplayCalendar true bwResp redResp
          = (EPD_7in5_V1_Init.map OrchEv.panel ++ (downloadAndStreamBW bwResp).1
              ++ (OrchEv.getRed :: OrchEv.panel (PanelOp.cmd 0x13)
                  :: (List.replicate TOTAL_BYTES 0xFF).map dataEv)
              ++ [OrchEv.panel (PanelOp.cmd 0x12)], true)) := by
  have hred := downloadAndStreamRed_fail redResp h
  refine ⟨hred, ?_, ?_⟩
  · intro cl b ev
    rw [downloadAndStreamRed_fail ⟨redResp.status, cl, b, ev⟩ h, hred]
  · intro bwResp hbw
    have hr2 : (downloadAndStreamRed redResp).2 = true := by rw [hred]
    have hcal := calendar_eq_ok bwResp redResp hbw hr2
    rw [hred] at hcal
    exact hcal

/-- Witness for claim C3 at a concrete input. -/
theorem claim_C3_witness :
    ((HttpResponse.mk 404 122880 [] []).status ≠ HTTP_CODE_OK
      ∧ (downloadAndStreamBW ⟨200, 1, [0x00], []⟩).2 = true)
    ∧ downloadAndStreamRed ⟨404, 122880, [], []⟩
        = (OrchEv.getRed :: OrchEv.panel (PanelOp.cmd 0x13)
            :: (List.replicate TOTAL_BYTES 0xFF).map dataEv, true) := by
  have h : (HttpResponse.mk 404 122880 [] []).status ≠ HTTP_CODE_OK := by
    norm_num [HTTP_CODE_OK]
  exact ⟨⟨h, eval_bw_ok⟩, (claim_C3 ⟨404, 122880, [], []⟩ h).1⟩

/-- Claim C2 counterexample: with a 200 black/white response that delivers
zero bytes, the update as a whole FAILS — the caller never issues the red
request and never refreshes — refuting the claim that a zero-byte black/white
stream is only a diagnostic warning after which the caller proceeds. -/
theorem claim_C2_counterexample :
    (downloadAndDisplayCalendar true ⟨200, 122880, [], []⟩ ⟨200, 122880, [], []⟩).2 = false
    ∧ OrchEv.getRed
        ∉ (downloadAndDisplayCalendar true ⟨200, 122880, [], []⟩ ⟨200, 122880, [], []⟩).1
    ∧ OrchEv.panel (PanelOp.cmd 0x12)
        ∉ (downloadAndDisplayCalendar true ⟨200, 122880, [], []⟩ ⟨200, 122880, [], []⟩).1 := by
  have hz : (streamChannelToDisplay 0x10 122880 [] []).bytesReceived = 0 := by
    rw [streamChannel_recv_eq 0x10 122880 [] [] _ (evalLoop_empty 122880)]
  have hret := streamChannel_ret_false_of_zero 0x10 122880 [] [] hz
  have hbw2 : (downloadAndStreamBW ⟨200, 122880, [], []⟩).2 = false := by
    rw [downloadAndStreamBW_ok _ rfl]
    exact hret
  have hcal := calendar_eq_bwfail ⟨200, 122880, [], []⟩ ⟨200, 122880, [], []⟩ hbw2
  rw [downloadAndStreamBW_ok _ rfl] at hcal
  refine ⟨by rw [hcal], ?_, ?_⟩
  · rw [hcal]
    simp [getRed_not_mem_init, dataEv]
  · rw [hcal]
    simp [refresh_not_mem_initOps, dataEv]

/-- Claim C2 (amended): if zero bytes are received from the peer for the
black/white channel (without timing out), the channel transfer itself does
complete — all TOTAL_BYTES bytes are written as white padding — and the
no-black-pixels warning is raised; but streamChannelToDisplay then returns
false, so the caller treats it as a hard failure: the update returns failure
and neither the red-channel request nor the refresh command is ever issued. -/
theorem claim_C2 (bwResp redResp : HttpResponse)
    (hst : bwResp.status = HTTP_CODE_OK)
    (hz : (streamChannelToDisplay 0x10 bwResp.contentLength bwResp.buf0
        bwResp.events).bytesReceived = 0)
    (hnt : (streamChannelToDisplay 0x10 bwResp.contentLength bwResp.buf0
        bwResp.events).timedOut = false) :
    (streamChannelToDisplay 0x10 bwResp.contentLength bwResp.buf0 bwResp.events).writes
        = List.replicate TOTAL_BYTES 0x33
    ∧ (streamChannelToDisplay 0x10 bwResp.contentLength bwResp.buf0 bwResp.events).warned
        = true
    ∧ (streamChannelToDisplay 0x10 bwResp.contentLength bwResp.buf0 bwResp.events).ret
        = false
    ∧ (downloadAndDisplayCalendar true bwResp redResp).2 = false
    ∧ OrchEv.getRed ∉ (downloadAndDisplayCalendar true bwResp redResp).1
    ∧ OrchEv.panel (PanelOp.cmd 0x12) ∉ (downloadAndDisplayCalendar true bwResp redResp).1 := by
  obtain ⟨-, -, -, -, -, -, -, -, h9, -⟩ :=
    streamChannel_spec 0x10 bwResp.contentLength bwResp.buf0 bwResp.events _ _ rfl rfl
  obtain ⟨hwarn, hret, hwrites⟩ := h9 hnt hz
  have hbw2 : (downloadAndStreamBW bwResp).2 = false := by
    rw [downloadAndStreamBW_ok bwResp hst]
    exact hret
  have hcal := calendar_eq_bwfail bwResp redResp hbw2
  rw [downloadAndStreamBW_ok bwResp hst] at hcal
  refine ⟨by simpa using hwrites, by simpa using hwarn, hret, by rw [hcal], ?_, ?_⟩
  · rw [hcal]
    simp [getRed_not_mem_init, dataEv]
  · rw [hcal]
    simp [refresh_not_mem_initOps, dataEv]

/-- Witness for claim C2 at a concrete input. -/
theorem claim_C2_witness :
    ((HttpResponse.mk 200 122880 [] []).status = HTTP_CODE_OK
      ∧ (streamChannelToDisplay 0x10 122880 [] []).bytesReceived = 0
      ∧ (streamChannelToDisplay 0x10 122880 [] []).timedOut = false)
    ∧ (streamChannelToDisplay 0x10 122880 [] []).writes
        = List.replicate TOTAL_BYTES 0x33 := by
  have hst : (HttpResponse.mk 200 122880 [] []).status = HTTP_CODE_OK := rfl
  have hz : (streamChannelToDisplay 0x10 122880 [] []).bytesReceived = 0 := by
    rw [streamChannel_recv_eq 0x10 122880 [] [] _ (evalLoop_empty 122880)]
  have hnt : (streamChannelToDisplay 0x10 122880 [] []).timedOut = false :=
    streamChannel_not_timedOut 0x10 122880 [] [] (by rw [evalLoop_empty])
  exact ⟨⟨hst, hz, hnt⟩,
    (claim_C2 ⟨200, 122880, [], []⟩ ⟨200, 122880, [], []⟩ hst hz hnt).1⟩

/-- Claim C10: if the red GET succeeds (status 200) but the red stream then
returns false (times out or delivers zero bytes), the whole update returns
failure and no refresh command 0x12 is ever issued, even though the
black/white channel's full TOTAL_BYTES of data were already written; the
no-red fallback is applied only for a non-success HTTP status, never for
stream-level failures (last conjunct: a timeout or a zero-byte stream always
returns false). -/
theorem claim_C10 (bwResp redResp : HttpResponse)
    (hbw : (downloadAndStreamBW bwResp).2 = true)
    (hst : redResp.status = HTTP_CODE_OK)
    (hred : (streamChannelToDisplay 0x13 redResp.contentLength redResp.buf0
        redResp.events).ret = false) :
    (downloadAndDisplayCalendar true bwResp redResp).2 = false
    ∧ OrchEv.panel (PanelOp.cmd 0x12) ∉ (downloadAndDisplayCalendar true bwResp redResp).1
    ∧ (∃ bwWrites : List Nat, bwWrites.length = TOTAL_BYTES
        ∧ (downloadAndDisplayCalendar true bwResp redResp).1
          = EPD_7in5_V1_Init.map OrchEv.panel
            ++ (OrchEv.getBW :: OrchEv.panel (PanelOp.cmd 0x10) :: bwWrites.map dataEv)
            ++ (OrchEv.getRed :: OrchEv.panel (PanelOp.cmd 0x13)
                :: (streamChannelToDisplay 0x13 redResp.contentLength redResp.buf0
                    redResp.events).writes.map dataEv))
    ∧ (∀ (c : Nat) (e : Int) (b : List Nat) (ev : List (List Nat)),
        (streamChannelToDisplay c e b ev).timedOut = true
          ∨ (streamChannelToDisplay c e b ev).bytesReceived = 0 →
        (streamChannelToDisplay c e b ev).ret = false) := by
  have hstbw : bwResp.status = HTTP_CODE_OK := by
    by_contra hne
    rw [downloadAndStreamBW_fail bwResp hne] at hbw
    simp at hbw
  have hbwT := downloadAndStreamBW_ok bwResp hstbw
  have hredT := downloadAndStreamRed_ok redResp hst
  have hred2 : (downloadAndStreamRed redResp).2 = false := by
    rw [hredT]
    exact hred
  have hcal := calendar_eq_redfail bwResp redResp hbw hred2
  have hbwret : (streamChannelToDisplay 0x10 bwResp.contentLength bwResp.buf0
      bwResp.events).ret = true := by
    rw [hbwT] at hbw
    exact hbw
  obtain ⟨-, -, -, -, h5, h6, -, -, -, -⟩ :=
    streamChannel_spec 0x10 bwResp.contentLength bwResp.buf0 bwResp.events _ _ rfl rfl
  have hnt := (h5.mp hbwret).1
  have hlen := (h6 hnt).2
  have hcal2 : downloadAndDisplayCalendar true bwResp redResp
      = (EPD_7in5_V1_Init.map OrchEv.panel
          ++ (OrchEv.getBW :: OrchEv.panel (PanelOp.cmd 0x10)
              :: (streamChannelToDisplay 0x10 bwResp.contentLength bwResp.buf0
                  bwResp.events).writes.map dataEv)
          ++ (OrchEv.getRed :: OrchEv.panel (PanelOp.cmd 0x13)
              :: (streamChannelToDisplay 0x13 redResp.contentLength redResp.buf0
                  redResp.events).writes.map dataEv), false) := by
    rw [hcal, hbwT, hredT]
  refine ⟨by rw [hcal2], ?_, ?_, ?_⟩
  · rw [hcal2]
    simp [refresh_not_mem_initOps, dataEv]
  · exact ⟨(streamChannelToDisplay 0x10 bwResp.contentLength bwResp.buf0
        bwResp.events).writes, hlen, by rw [hcal2]⟩
  · intro c e b ev hfail
    rcases hfail with hfail | hfail
    · exact streamChannel_ret_false_of_timeout c e b ev hfail
    · exact streamChannel_ret_false_of_zero c e b ev hfail

/-- Witness for claim C10 at a concrete input. -/
theorem claim_C10_witness :
    ((downloadAndStreamBW ⟨200, 1, [0x00], []⟩).2 = true
      ∧ (HttpResponse.mk 200 122880 [] []).status = HTTP_CODE_OK
      ∧ (streamChannelToDisplay 0x13 122880 [] []).ret = false)
    ∧ (downloadAndDisplayCalendar true ⟨200, 1, [0x00], []⟩ ⟨200, 122880, [], []⟩).2
        = false := by
  have h1 : (downloadAndStreamBW ⟨200, 1, [0x00], []⟩).2 = true := eval_bw_ok
  have h3 : (streamChannelToDisplay 0x13 122880 [] []).ret = false :=
    streamChannel_ret_false_of_zero 0x13 122880 [] []
      (by rw [streamChannel_recv_eq 0x13 122880 [] [] _ (evalLoop_empty 122880)])
  exact ⟨⟨h1, rfl, h3⟩,
    (claim_C10 ⟨200, 1, [0x00], []⟩ ⟨200, 122880, [], []⟩ h1 rfl h3).1⟩

/-- Claim C8: in every successful update all black/white data bytes are
written before any red data byte and the refresh command 0x12 comes last; a
failed update never issues 0x12, so 0x12 is issued only after both channels
have completed (successfully or via fallback); and the pattern-demo firmware's
drawColorPattern likewise writes the full black/white plane, then the full red
plane, then refreshes. -/
theorem claim_C8 :
    (∀ bwResp redResp : HttpResponse,
      (downloadAndDisplayCalendar true bwResp redResp).2 = true →
      ∃ bwWrites redWrites : List Nat,
        (downloadAndDisplayCalendar true bwResp redResp).1
          = EPD_7in5_V1_Init.map OrchEv.panel
            ++ (OrchEv.getBW :: OrchEv.panel (PanelOp.cmd 0x10) :: bwWrites.map dataEv)
            ++ (OrchEv.getRed :: OrchEv.panel (PanelOp.cmd 0x13) :: redWrites.map dataEv)
            ++ [OrchEv.panel (PanelOp.cmd 0x12)])
    ∧ (∀ bwResp redResp : HttpResponse,
      (downloadAndDisplayCalendar true bwResp redResp).2 = false →
      OrchEv.panel (PanelOp.cmd 0x12) ∉ (downloadAndDisplayCalendar true bwResp redResp).1)
    ∧ (∀ getPixelColor : Nat → Int,
      drawColorPattern getPixelColor
        = (PanelOp.cmd 0x10
            :: ((List.range TOTAL_BYTES).map fun i =>
                PanelOp.data (bwValueOf (getPixelColor i))))
          ++ (PanelOp.cmd 0x13
            :: ((List.range TOTAL_BYTES).map fun i =>
                PanelOp.data (redValueOf (getPixelColor i))))
          ++ [PanelOp.cmd 0x12]) := by
  refine ⟨?_, ?_, ?_⟩
  · intro bwResp redResp hok
    rcases hbw2 : (downloadAndStreamBW bwResp).2 with _ | _
    · rw [(calendar_eq_bwfail bwResp redResp hbw2 : _)] at hok
      simp at hok
    · rcases hred2 : (downloadAndStreamRed redResp).2 with _ | _
      · rw [(calendar_eq_redfail bwResp redResp hbw2 hred2 : _)] at hok
        simp at hok
      · have hcal := calendar_eq_ok bwResp redResp hbw2 hred2
        have hstbw : bwResp.status = HTTP_CODE_OK := by
          by_contra hne
          rw [downloadAndStreamBW_fail bwResp hne] at hbw2
          simp at hbw2
        have hbwT := downloadAndStreamBW_ok bwResp hstbw
        by_cases hstred : redResp.status = HTTP_CODE_OK
        · refine ⟨(streamChannelToDisplay 0x10 bwResp.contentLength bwResp.buf0
              bwResp.events).writes,
            (streamChannelToDisplay 0x13 redResp.contentLength redResp.buf0
              redResp.events).writes, ?_⟩
          rw [hcal, hbwT, downloadAndStreamRed_ok redResp hstred]
        · refine ⟨(streamChannelToDisplay 0x10 bwResp.contentLength bwResp.buf0
              bwResp.events).writes, List.replicate TOTAL_BYTES 0xFF, ?_⟩
          rw [hcal, hbwT, downloadAndStreamRed_fail redResp hstred]
  · intro bwResp redResp hfail
    rcases hbw2 : (downloadAndStreamBW bwResp).2 with _ | _
    · have hcal := calendar_eq_bwfail bwResp redResp hbw2
      by_cases hstbw : bwResp.status = HTTP_CODE_OK
      · rw [downloadAndStreamBW_ok bwResp hstbw] at hcal
        rw [hcal]
        simp [refresh_not_mem_initOps, dataEv]
      · rw [downloadAndStreamBW_fail bwResp hstbw] at hcal
        rw [hcal]
        simp [refresh_not_mem_initOps]
    · rcases hred2 : (downloadAndStreamRed redResp).2 with _ | _
      · have hcal := calendar_eq_redfail bwResp redResp hbw2 hred2
        have hstbw : bwResp.status = HTTP_CODE_OK := by
          by_contra hne
          rw [downloadAndStreamBW_fail bwResp hne] at hbw2
          simp at hbw2
        have hstred : redResp.status = HTTP_CODE_OK := by
          by_contra hne
          rw [downloadAndStreamRed_fail redResp hne] at hred2
          simp at hred2
        rw [downloadAndStreamBW_ok bwResp hstbw,
          downloadAndStreamRed_ok redResp hstred] at hcal
        rw [hcal]
        simp [refresh_not_mem_initOps, dataEv]
      · rw [(calendar_eq_ok bwResp redResp hbw2 hred2 : _)] at hfail
        simp at hfail
  · intro getPixelColor
    rfl

/-- Witness for claim C8 at concrete inputs. -/
theorem claim_C8_witness :
    ((downloadAndDisplayCalendar true ⟨200, 1, [0x00], []⟩ ⟨404, 0, [], []⟩).2 = true
      ∧ ∃ bwWrites redWrites : List Nat,
        (downloadAndDisplayCalendar true ⟨200, 1, [0x00], []⟩ ⟨404, 0, [], []⟩).1
          = EPD_7in5_V1_Init.map OrchEv.panel
            ++ (OrchEv.getBW :: OrchEv.panel (PanelOp.cmd 0x10) :: bwWrites.map dataEv)
            ++ (OrchEv.getRed :: OrchEv.panel (PanelOp.cmd 0x13) :: redWrites.map dataEv)
            ++ [OrchEv.panel (PanelOp.cmd 0x12)])
    ∧ ((downloadAndDisplayCalendar true ⟨404, 0, [], []⟩ ⟨404, 0, [], []⟩).2 = false
      ∧ OrchEv.panel (PanelOp.cmd 0x12)
          ∉ (downloadAndDisplayCalendar true ⟨404, 0, [], []⟩ ⟨404, 0, [], []⟩).1) := by
  have hred : (downloadAndStreamRed ⟨404, 0, [], []⟩).2 = true := by
    rw [downloadAndStreamRed_fail ⟨404, 0, [], []⟩ (by norm_num [HTTP_CODE_OK])]
  have hok : (downloadAndDisplayCalendar true ⟨200, 1, [0x00], []⟩ ⟨404, 0, [], []⟩).2
      = true := by
    rw [calendar_eq_ok ⟨200, 1, [0x00], []⟩ ⟨404, 0, [], []⟩ eval_bw_ok hred]
  have hfail : (downloadAndDisplayCalendar true ⟨404, 0, [], []⟩ ⟨404, 0, [], []⟩).2
      = false := by
    rw [calendar_eq_bwfail ⟨404, 0, [], []⟩ ⟨404, 0, [], []⟩
      (by rw [downloadAndStreamBW_fail ⟨404, 0, [], []⟩ (by norm_num [HTTP_CODE_OK])])]
  exact ⟨⟨hok, claim_C8.1 ⟨200, 1, [0x00], []⟩ ⟨404, 0, [], []⟩ hok⟩,
    ⟨hfail, claim_C8.2.1 ⟨404, 0, [], []⟩ ⟨404, 0, [], []⟩ hfail⟩⟩

end EPaper
